import Mathlib

/-!
Shallow embedding of the SiFive MMIO UART driver (src/lib.rs).

Register values are natural numbers below 2^32 (the Rust code works on
`u32`).  Volatile MMIO reads are modelled by an oracle `Nat → Nat` giving
the value returned by the k-th register read performed inside one driver
call (each driver operation only ever reads a single register, so one
counter suffices).  Every operation also returns the list of register
accesses (reads and writes, with offset and value) it performed, so that
frame properties ("touches no other register") can be stated.
-/

namespace SifiveUart

/-- `REG_TOTAL_SIZE`: 7 x 32-bit registers. -/
def REG_TOTAL_SIZE : Nat := 7 * 4

/-- Transmit data register offset. -/
def REG_TXDATA : Nat := 0 * 4

/-- Receive data register offset. -/
def REG_RXDATA : Nat := 1 * 4

/-- Transmit control register offset. -/
def REG_TXCTRL : Nat := 2 * 4

/-- Receive control register offset. -/
def REG_RXCTRL : Nat := 3 * 4

/-- UART interrupt enable register offset. -/
def REG_IE : Nat := 4 * 4

/-- UART interrupt pending register offset. -/
def REG_IP : Nat := 5 * 4

/-- Baud rate divisor register offset. -/
def REG_DIV : Nat := 6 * 4

/-- Transmit watermark interrupt enable bit. -/
def REG_IE_TXWM : Nat := 1 <<< 0

/-- Receive watermark interrupt enable bit. -/
def REG_IE_RXWM : Nat := 1 <<< 1

/-- Transmit enable bit. -/
def REG_TXCTRL_TXEN : Nat := 1 <<< 0

/-- Tx FIFO irq watermark level of 1. -/
def REG_TXCTRL_TXCNT : Nat := 1 <<< 16

/-- Receive enable bit. -/
def REG_RXCTRL_RXEN : Nat := 1 <<< 0

/-- Rx FIFO irq watermark level of 6. -/
def REG_RXCTRL_RXCNT : Nat := 6 <<< 16

/-- Bit 31 of TXDATA: transmit FIFO full. -/
def REG_TXDATA_FULL : Nat := 1 <<< 31

/-- Bit 31 of RXDATA: receive FIFO empty. -/
def REG_RXDATA_EMPTY : Nat := 1 <<< 31

/-- Rust `!REG_IE_TXWM` evaluated on `u32`: the 32-bit bitwise complement. -/
def NOT_REG_IE_TXWM : Nat := 2 ^ 32 - 1 - REG_IE_TXWM

/-- Rust `!REG_IE_RXWM` evaluated on `u32`: the 32-bit bitwise complement. -/
def NOT_REG_IE_RXWM : Nat := 2 ^ 32 - 1 - REG_IE_RXWM

/-- Give up polling after this many check iterations. -/
def LOOP_MAX : Nat := 1000

/-- The error conditions of the driver. -/
inductive Fault where
  /-- gave up waiting to transmit -/
  | TxNotEmpty : Fault
  /-- gave up waiting for received data -/
  | DataNotReady : Fault
deriving DecidableEq

/-- The controller handle: just the base address of the register block. -/
structure UART where
  base_addr : Nat
deriving DecidableEq

/-- One MMIO access: a volatile read or write of a register (given by its
byte offset from the base address) together with the 32-bit value read or
written. -/
inductive Access where
  | read : Nat → Nat → Access
  | write : Nat → Nat → Access
deriving DecidableEq

/-- The register offset an access touches. -/
def Access.regOf : Access → Nat
  | .read r _ => r
  | .write r _ => r

/-- Whether an access is a read of register `reg`. -/
def Access.isReadOf (reg : Nat) : Access → Bool
  | .read r _ => r == reg
  | .write _ _ => false

/-- The write accesses of a trace, in order. -/
def writesOf (tr : List Access) : List Access :=
  tr.filter fun a => match a with
    | .write _ _ => true
    | .read _ _ => false

/-- `UART::new`: build the handle, write TXCTRL (tx enable, tx watermark)
and RXCTRL (rx enable, rx watermark), and return `Ok`. -/
def UART.new (base_addr : Nat) : Except Fault UART × List Access :=
  let uart : UART := { base_addr := base_addr }
  (Except.ok uart,
    [Access.write REG_TXCTRL (REG_TXCTRL_TXCNT ||| REG_TXCTRL_TXEN),
     Access.write REG_RXCTRL (REG_RXCTRL_RXCNT ||| REG_RXCTRL_RXEN)])

/-- `UART::enable_tx_watermark_irq`: read IE, then write it back with the
tx-watermark bit set or cleared.  `ie` is the current IE register value
(returned by the volatile read); the first component is the IE value after
the write. -/
def UART.enable_tx_watermark_irq (ie : Nat) (enable : Bool) : Nat × List Access :=
  let flags := ie
  if enable = true then
    (flags ||| REG_IE_TXWM,
      [Access.read REG_IE flags, Access.write REG_IE (flags ||| REG_IE_TXWM)])
  else
    (flags &&& NOT_REG_IE_TXWM,
      [Access.read REG_IE flags, Access.write REG_IE (flags &&& NOT_REG_IE_TXWM)])

/-- `UART::enable_rx_watermark_irq`: read IE, then write it back with the
rx-watermark bit set or cleared. -/
def UART.enable_rx_watermark_irq (ie : Nat) (enable : Bool) : Nat × List Access :=
  let flags := ie
  if enable = true then
    (flags ||| REG_IE_RXWM,
      [Access.read REG_IE flags, Access.write REG_IE (flags ||| REG_IE_RXWM)])
  else
    (flags &&& NOT_REG_IE_RXWM,
      [Access.read REG_IE flags, Access.write REG_IE (flags &&& NOT_REG_IE_RXWM)])

/-- `UART::set_baud`: write `bus_freq / baud` to DIV.  Rust `u32` division
panics when the divisor is zero; the panic is modelled as `none`. -/
def UART.set_baud (u : UART) (baud bus_freq : Nat) : Option (List Access) :=
  if baud = 0 then none
  else some [Access.write REG_DIV (bus_freq / baud)]

/-- `UART::size`: the MMIO span in bytes; performs no register access. -/
def UART.size (u : UART) : Nat × List Access :=
  (REG_TOTAL_SIZE, [])

/-- `UART::is_transmit_full`: read TXDATA (the k-th read of the enclosing
call) and test the FULL bit. -/
def UART.is_transmit_full (oracle : Nat → Nat) (k : Nat) : Bool × List Access :=
  let val := oracle k
  (val &&& REG_TXDATA_FULL != 0, [Access.read REG_TXDATA val])

/-- `UART::is_data_empty`: read RXDATA (the k-th read of the enclosing
call) and test the EMPTY bit. -/
def UART.is_data_empty (oracle : Nat → Nat) (k : Nat) : Bool × List Access :=
  let val := oracle k
  (val &&& REG_RXDATA_EMPTY != 0, [Access.read REG_RXDATA val])

/-- The `for _ in 0..LOOP_MAX` loop of `UART::send_byte`: `fuel` is the
number of iterations left, `k` the number of reads already performed. -/
def UART.send_byte_go (oracle : Nat → Nat) (to_send : Nat) (k : Nat) :
    Nat → Except Fault Unit × List Access
  | 0 => (Except.error Fault.TxNotEmpty, [])
  | fuel + 1 =>
    let full := UART.is_transmit_full oracle k
    if full.1 = false then
      (Except.ok (), full.2 ++ [Access.write REG_TXDATA to_send])
    else
      let rest := UART.send_byte_go oracle to_send (k + 1) fuel
      (rest.1, full.2 ++ rest.2)

/-- `UART::send_byte`: poll TXDATA up to LOOP_MAX times; when the FULL bit
is clear, write the byte (`to_send as u32` zero-extends, so the written
word is `to_send` itself) and return `Ok`; otherwise fail. -/
def UART.send_byte (u : UART) (oracle : Nat → Nat) (to_send : Nat) :
    Except Fault Unit × List Access :=
  UART.send_byte_go oracle to_send 0 LOOP_MAX

/-- The `for _ in 0..LOOP_MAX` loop of `UART::read_byte`.  Note that the
loop body performs a second, separate read of RXDATA (read `k + 1`) to
extract the data byte after `is_data_empty` has already read RXDATA once. -/
def UART.read_byte_go (oracle : Nat → Nat) (k : Nat) :
    Nat → Except Fault Nat × List Access
  | 0 => (Except.error Fault.DataNotReady, [])
  | fuel + 1 =>
    let empty := UART.is_data_empty oracle k
    if empty.1 = false then
      let val := oracle (k + 1)
      (Except.ok (val &&& 0xff), empty.2 ++ [Access.read REG_RXDATA val])
    else
      let rest := UART.read_byte_go oracle (k + 1) fuel
      (rest.1, empty.2 ++ rest.2)

/-- `UART::read_byte`: poll RXDATA up to LOOP_MAX times; when the EMPTY bit
is clear, read RXDATA again and return its low 8 bits; otherwise fail. -/
def UART.read_byte (u : UART) (oracle : Nat → Nat) :
    Except Fault Nat × List Access :=
  UART.read_byte_go oracle 0 LOOP_MAX

/-! ### Bit-level helper lemmas -/

theorem or_or_self (a b : Nat) : (a ||| b) ||| b = a ||| b := by
  rw [Nat.or_assoc, Nat.or_self]

theorem NOT_TXWM_eq_xor : NOT_REG_IE_TXWM = (2 ^ 32 - 1) ^^^ 2 ^ 0 := by decide

theorem NOT_RXWM_eq_xor : NOT_REG_IE_RXWM = (2 ^ 32 - 1) ^^^ 2 ^ 1 := by decide

theorem testBit_NOT_TXWM (i : Nat) :
    NOT_REG_IE_TXWM.testBit i = (decide (i ≠ 0) && decide (i < 32)) := by
  rw [NOT_TXWM_eq_xor, Nat.testBit_xor, Nat.testBit_two_pow_sub_one, Nat.testBit_two_pow]
  by_cases h0 : i = 0
  · subst h0; simp
  · have h0s : ¬(0 = i) := fun hh => h0 hh.symm
    by_cases h32 : i < 32 <;> simp [h0, h32, h0s]

theorem testBit_NOT_RXWM (i : Nat) :
    NOT_REG_IE_RXWM.testBit i = (decide (i ≠ 1) && decide (i < 32)) := by
  rw [NOT_RXWM_eq_xor, Nat.testBit_xor, Nat.testBit_two_pow_sub_one, Nat.testBit_two_pow]
  by_cases h0 : i = 1
  · subst h0; simp
  · have h0s : ¬(1 = i) := fun hh => h0 hh.symm
    by_cases h32 : i < 32 <;> simp [h0, h32, h0s]

theorem testBit_false_of_lt (a i n : Nat) (hn : n ≤ i) (ha : a < 2 ^ n) :
    a.testBit i = false :=
  Nat.testBit_lt_two_pow (lt_of_lt_of_le ha (Nat.pow_le_pow_right (by norm_num) hn))

theorem land_NOT_TXWM_of_clear (a : Nat) (h32 : a < 2 ^ 32)
    (h0 : a.testBit 0 = false) : a &&& NOT_REG_IE_TXWM = a := by
  apply Nat.eq_of_testBit_eq
  intro i
  rw [Nat.testBit_and, testBit_NOT_TXWM]
  by_cases hi0 : i = 0
  · subst hi0; simp [h0]
  · by_cases hi32 : i < 32
    · simp [hi0, hi32]
    · simp [testBit_false_of_lt a i 32 (by omega) h32]

theorem testBit_land_NOT_TXWM (a i : Nat) (h32 : a < 2 ^ 32) (hi : i ≠ 0) :
    (a &&& NOT_REG_IE_TXWM).testBit i = a.testBit i := by
  rw [Nat.testBit_and, testBit_NOT_TXWM]
  by_cases hi32 : i < 32
  · simp [hi, hi32]
  · simp [testBit_false_of_lt a i 32 (by omega) h32]

theorem testBit_land_NOT_RXWM (a i : Nat) (h32 : a < 2 ^ 32) (hi : i ≠ 1) :
    (a &&& NOT_REG_IE_RXWM).testBit i = a.testBit i := by
  rw [Nat.testBit_and, testBit_NOT_RXWM]
  by_cases hi32 : i < 32
  · simp [hi, hi32]
  · simp [testBit_false_of_lt a i 32 (by omega) h32]

theorem testBit_one_of_ne (i : Nat) (h : i ≠ 0) : (1 : Nat).testBit i = false := by
  have h1 : (1 : Nat) = 2 ^ 0 := rfl
  rw [h1, Nat.testBit_two_pow]
  exact decide_eq_false fun hh => h hh.symm

theorem testBit_two_of_ne (i : Nat) (h : i ≠ 1) : (2 : Nat).testBit i = false := by
  have h2 : (2 : Nat) = 2 ^ 1 := rfl
  rw [h2, Nat.testBit_two_pow]
  exact decide_eq_false fun hh => h hh.symm

/-- Unfolded value of the tx-watermark bit constant. -/
theorem REG_IE_TXWM_eq : REG_IE_TXWM = 1 := rfl

/-- Unfolded value of the rx-watermark bit constant. -/
theorem REG_IE_RXWM_eq : REG_IE_RXWM = 2 := rfl

/-! ### The polling loops under an always-full / always-empty device -/

theorem send_byte_go_all_full (oracle : Nat → Nat) (b : Nat)
    (h : ∀ j, oracle j &&& REG_TXDATA_FULL ≠ 0) :
    ∀ fuel k,
      (UART.send_byte_go oracle b k fuel).1 = Except.error Fault.TxNotEmpty ∧
      (UART.send_byte_go oracle b k fuel).2.length = fuel ∧
      ((UART.send_byte_go oracle b k fuel).2.all (Access.isReadOf REG_TXDATA)) = true := by
  intro fuel
  induction fuel with
  | zero => intro k; exact ⟨rfl, rfl, rfl⟩
  | succ n ih =>
    intro k
    have hfull : (UART.is_transmit_full oracle k).1 = true := by
      simpa [UART.is_transmit_full] using h k
    obtain ⟨ih1, ih2, ih3⟩ := ih (k + 1)
    simp only [UART.send_byte_go, hfull, Bool.true_eq_false, if_false]
    refine ⟨ih1, ?_, ?_⟩
    · simp [UART.is_transmit_full, ih2]
    · simp [UART.is_transmit_full, Access.isReadOf, ih3]

theorem read_byte_go_all_empty (oracle : Nat → Nat)
    (h : ∀ j, oracle j &&& REG_RXDATA_EMPTY ≠ 0) :
    ∀ fuel k,
      (UART.read_byte_go oracle k fuel).1 = Except.error Fault.DataNotReady ∧
      (UART.read_byte_go oracle k fuel).2.length = fuel ∧
      ((UART.read_byte_go oracle k fuel).2.all (Access.isReadOf REG_RXDATA)) = true := by
  intro fuel
  induction fuel with
  | zero => intro k; exact ⟨rfl, rfl, rfl⟩
  | succ n ih =>
    intro k
    have hempty : (UART.is_data_empty oracle k).1 = true := by
      simpa [UART.is_data_empty] using h k
    obtain ⟨ih1, ih2, ih3⟩ := ih (k + 1)
    simp only [UART.read_byte_go, hempty, Bool.true_eq_false, if_false]
    refine ⟨ih1, ?_, ?_⟩
    · simp [UART.is_data_empty, ih2]
    · simp [UART.is_data_empty, Access.isReadOf, ih3]

/-! ### The successful transmit path writes exactly the zero-extended byte -/

theorem send_byte_go_ok_writes (oracle : Nat → Nat) (b : Nat) :
    ∀ fuel k, (UART.send_byte_go oracle b k fuel).1 = Except.ok () →
      writesOf (UART.send_byte_go oracle b k fuel).2 = [Access.write REG_TXDATA b] := by
  intro fuel
  induction fuel with
  | zero =>
    intro k hk
    exact absurd hk (by simp [UART.send_byte_go])
  | succ n ih =>
    intro k hk
    by_cases hf : (UART.is_transmit_full oracle k).1 = false
    · simp only [UART.is_transmit_full, bne_eq_false_iff_eq] at hf
      simp [UART.send_byte_go, UART.is_transmit_full, hf, writesOf]
    · simp only [Bool.not_eq_false] at hf
      simp only [UART.send_byte_go, hf, Bool.true_eq_false, if_false] at hk ⊢
      have hrest := ih (k + 1) hk
      simp only [writesOf, UART.is_transmit_full, List.filter_append] at hrest ⊢
      simpa using hrest

/-! ### Claim theorems -/

/-- Claim C1: bounded polling on failure.  If every read of TXDATA has the
full bit (bit 31) set, `send_byte` polls exactly `LOOP_MAX = 1000` times
(the trace is 1000 reads of TXDATA and nothing else, so TXDATA is never
written) and returns the `TxNotEmpty` fault; symmetrically, if every read
of RXDATA has the empty bit set, `read_byte` performs 1000 reads of RXDATA
and returns the `DataNotReady` fault without returning any byte. -/
theorem C1_bounded_polling_on_failure (u : UART) (oracleT oracleR : Nat → Nat) (b : Nat)
    (hT : ∀ j, oracleT j &&& REG_TXDATA_FULL ≠ 0)
    (hR : ∀ j, oracleR j &&& REG_RXDATA_EMPTY ≠ 0) :
    LOOP_MAX = 1000 ∧
    (u.send_byte oracleT b).1 = Except.error Fault.TxNotEmpty ∧
    (u.send_byte oracleT b).2.length = LOOP_MAX ∧
    ((u.send_byte oracleT b).2.all (Access.isReadOf REG_TXDATA)) = true ∧
    (u.read_byte oracleR).1 = Except.error Fault.DataNotReady ∧
    (u.read_byte oracleR).2.length = LOOP_MAX ∧
    ((u.read_byte oracleR).2.all (Access.isReadOf REG_RXDATA)) = true := by
  obtain ⟨hs1, hs2, hs3⟩ := send_byte_go_all_full oracleT b hT LOOP_MAX 0
  obtain ⟨hr1, hr2, hr3⟩ := read_byte_go_all_empty oracleR hR LOOP_MAX 0
  exact ⟨rfl, hs1, hs2, hs3, hr1, hr2, hr3⟩

/-- Witness for C1: the constant oracle returning `0x80000000` (bit 31 set)
on every read. -/
theorem C1_bounded_polling_on_failure_witness :
    (∀ j : Nat, (fun _ : Nat => (0x80000000 : Nat)) j &&& REG_TXDATA_FULL ≠ 0) ∧
    (∀ j : Nat, (fun _ : Nat => (0x80000000 : Nat)) j &&& REG_RXDATA_EMPTY ≠ 0) ∧
    (LOOP_MAX = 1000 ∧
     (UART.send_byte ⟨0x10010000⟩ (fun _ : Nat => (0x80000000 : Nat)) 0x41).1
         = Except.error Fault.TxNotEmpty ∧
     (UART.send_byte ⟨0x10010000⟩ (fun _ : Nat => (0x80000000 : Nat)) 0x41).2.length = LOOP_MAX ∧
     ((UART.send_byte ⟨0x10010000⟩ (fun _ : Nat => (0x80000000 : Nat)) 0x41).2.all
         (Access.isReadOf REG_TXDATA)) = true ∧
     (UART.read_byte ⟨0x10010000⟩ (fun _ : Nat => (0x80000000 : Nat))).1
         = Except.error Fault.DataNotReady ∧
     (UART.read_byte ⟨0x10010000⟩ (fun _ : Nat => (0x80000000 : Nat))).2.length = LOOP_MAX ∧
     ((UART.read_byte ⟨0x10010000⟩ (fun _ : Nat => (0x80000000 : Nat))).2.all
         (Access.isReadOf REG_RXDATA)) = true) :=
  ⟨fun j => by show (0x80000000 : Nat) &&& REG_TXDATA_FULL ≠ 0; decide,
   fun j => by show (0x80000000 : Nat) &&& REG_RXDATA_EMPTY ≠ 0; decide,
   C1_bounded_polling_on_failure ⟨0x10010000⟩ (fun _ => 0x80000000) (fun _ => 0x80000000) 0x41
     (fun j => by show (0x80000000 : Nat) &&& REG_TXDATA_FULL ≠ 0; decide)
     (fun j => by show (0x80000000 : Nat) &&& REG_RXDATA_EMPTY ≠ 0; decide)⟩

/-- Claim C2 (code bug): `read_byte` does NOT extract the byte from the
same RXDATA word whose empty flag it observed clear.  The source calls
`is_data_empty` (one volatile read of RXDATA) and then reads RXDATA a
second time to extract the byte.  At the read sequence 0x41 (empty clear,
byte 0x41) followed by 0x80000000 (empty set), the driver performs two
RXDATA reads and returns `Ok 0x00`: the low 8 bits of the second
word, whose empty flag was set, not the byte 0x41 of the word observed
non-empty. -/
theorem C2_read_byte_two_reads :
    (UART.read_byte ⟨0⟩ (fun k => if k = 0 then 0x41 else 0x80000000)).1 = Except.ok 0x00 ∧
    (UART.read_byte ⟨0⟩ (fun k => if k = 0 then 0x41 else 0x80000000)).2
        = [Access.read REG_RXDATA 0x41, Access.read REG_RXDATA 0x80000000] ∧
    (0x80000000 : Nat) &&& REG_RXDATA_EMPTY ≠ 0 ∧
    (0x41 : Nat) &&& 0xff ≠ 0x00 :=
  ⟨rfl, rfl, by decide, by decide⟩

/-- Claim C3: construction writes exactly TXCTRL = 0x10001 (tx enable |
watermark 1 in bits 16+) and RXCTRL = 0x60001 (rx enable | watermark 6 in
bits 16+), in that order, and touches no other register. -/
theorem C3_new_register_writes (base_addr : Nat) :
    UART.new base_addr =
      (Except.ok { base_addr := base_addr },
       [Access.write REG_TXCTRL 0x10001, Access.write REG_RXCTRL 0x60001]) ∧
    ((UART.new base_addr).2.all
        fun a => (a.regOf == REG_TXCTRL) || (a.regOf == REG_RXCTRL)) = true :=
  ⟨rfl, rfl⟩

/-- Claim C4: `set_baud` writes exactly the truncating quotient
`bus_freq / baud` to DIV and touches no other register; in particular
`set_baud 115200 32000000` writes 277 and `set_baud 9600 19660800`
writes 2048. -/
theorem C4_set_baud_divisor (u : UART) (baud bus_freq : Nat) (h : 0 < baud) :
    u.set_baud baud bus_freq = some [Access.write REG_DIV (bus_freq / baud)] ∧
    u.set_baud 115200 32000000 = some [Access.write REG_DIV 277] ∧
    u.set_baud 9600 19660800 = some [Access.write REG_DIV 2048] := by
  refine ⟨?_, rfl, rfl⟩
  simp [UART.set_baud, Nat.pos_iff_ne_zero.mp h]

/-- Witness for C4 at baud 115200, bus frequency 32 MHz. -/
theorem C4_set_baud_divisor_witness :
    0 < 115200 ∧
    (UART.set_baud ⟨0⟩ 115200 32000000 = some [Access.write REG_DIV (32000000 / 115200)] ∧
     UART.set_baud ⟨0⟩ 115200 32000000 = some [Access.write REG_DIV 277] ∧
     UART.set_baud ⟨0⟩ 9600 19660800 = some [Access.write REG_DIV 2048]) :=
  ⟨by decide, C4_set_baud_divisor ⟨0⟩ 115200 32000000 (by decide)⟩

/-- Claim C5: `set_baud` validates nothing; with `baud > 0` the division
never faults (the call returns a write), while `baud = 0` reaches the
unguarded `u32` division by zero, modelled as `none` (a panic, not a
reported error value). -/
theorem C5_set_baud_div_by_zero (u : UART) (baud bus_freq : Nat) :
    (0 < baud → (u.set_baud baud bus_freq).isSome = true) ∧
    u.set_baud 0 bus_freq = none := by
  constructor
  · intro h
    simp [UART.set_baud, Nat.pos_iff_ne_zero.mp h]
  · rfl

/-- Witness for C5 at baud 9600 (and the zero-baud branch at bus
frequency 1000000). -/
theorem C5_set_baud_div_by_zero_witness :
    ((0 < 9600 → (UART.set_baud ⟨0⟩ 9600 1000000).isSome = true) ∧
     UART.set_baud ⟨0⟩ 0 1000000 = none) ∧
    (UART.set_baud ⟨0⟩ 9600 1000000).isSome = true :=
  ⟨C5_set_baud_div_by_zero ⟨0⟩ 9600 1000000,
   (C5_set_baud_div_by_zero ⟨0⟩ 9600 1000000).1 (by decide)⟩

/-- Claim C6: algebra of interrupt toggling.  For any 32-bit IE value,
enabling the tx-watermark interrupt twice leaves IE equal to enabling it
once; disabling it when bit 0 is already clear leaves IE unchanged; and
enabling tx then rx (or rx then tx) leaves both bit 0 and bit 1 set. -/
theorem C6_irq_toggle_algebra (ie : Nat) (h32 : ie < 2 ^ 32) :
    (UART.enable_tx_watermark_irq (UART.enable_tx_watermark_irq ie true).1 true).1
        = (UART.enable_tx_watermark_irq ie true).1 ∧
    (ie &&& REG_IE_TXWM = 0 → (UART.enable_tx_watermark_irq ie false).1 = ie) ∧
    ((UART.enable_rx_watermark_irq (UART.enable_tx_watermark_irq ie true).1 true).1.testBit 0 = true ∧
     (UART.enable_rx_watermark_irq (UART.enable_tx_watermark_irq ie true).1 true).1.testBit 1 = true) ∧
    ((UART.enable_tx_watermark_irq (UART.enable_rx_watermark_irq ie true).1 true).1.testBit 0 = true ∧
     (UART.enable_tx_watermark_irq (UART.enable_rx_watermark_irq ie true).1 true).1.testBit 1 = true) := by
  refine ⟨?_, ?_, ⟨?_, ?_⟩, ⟨?_, ?_⟩⟩
  · simp [UART.enable_tx_watermark_irq, or_or_self]
  · intro h0
    have hmod : ie % 2 = 0 := by
      rw [REG_IE_TXWM_eq, Nat.and_one_is_mod] at h0
      exact h0
    have hbit : ie.testBit 0 = false := by
      simp [Nat.testBit_zero, hmod]
    simp [UART.enable_tx_watermark_irq, land_NOT_TXWM_of_clear ie h32 hbit]
  · simp [UART.enable_rx_watermark_irq, UART.enable_tx_watermark_irq,
      Nat.testBit_or, REG_IE_TXWM_eq, REG_IE_RXWM_eq,
      show (1 : Nat).testBit 0 = true from by decide]
  · simp [UART.enable_rx_watermark_irq, UART.enable_tx_watermark_irq,
      Nat.testBit_or, REG_IE_TXWM_eq, REG_IE_RXWM_eq,
      show (2 : Nat).testBit 1 = true from by decide]
  · simp [UART.enable_rx_watermark_irq, UART.enable_tx_watermark_irq,
      Nat.testBit_or, REG_IE_TXWM_eq, REG_IE_RXWM_eq,
      show (1 : Nat).testBit 0 = true from by decide]
  · simp [UART.enable_rx_watermark_irq, UART.enable_tx_watermark_irq,
      Nat.testBit_or, REG_IE_TXWM_eq, REG_IE_RXWM_eq,
      show (2 : Nat).testBit 1 = true from by decide]

/-- Witness for C6 at IE = 4 (bit 0 clear, an unrelated bit set). -/
theorem C6_irq_toggle_algebra_witness :
    (4 : Nat) < 2 ^ 32 ∧
    ((UART.enable_tx_watermark_irq (UART.enable_tx_watermark_irq 4 true).1 true).1
         = (UART.enable_tx_watermark_irq 4 true).1 ∧
     ((4 : Nat) &&& REG_IE_TXWM = 0 → (UART.enable_tx_watermark_irq 4 false).1 = 4) ∧
     ((UART.enable_rx_watermark_irq (UART.enable_tx_watermark_irq 4 true).1 true).1.testBit 0 = true ∧
      (UART.enable_rx_watermark_irq (UART.enable_tx_watermark_irq 4 true).1 true).1.testBit 1 = true) ∧
     ((UART.enable_tx_watermark_irq (UART.enable_rx_watermark_irq 4 true).1 true).1.testBit 0 = true ∧
      (UART.enable_tx_watermark_irq (UART.enable_rx_watermark_irq 4 true).1 true).1.testBit 1 = true)) ∧
    (UART.enable_tx_watermark_irq 4 false).1 = 4 :=
  ⟨by decide, C6_irq_toggle_algebra 4 (by decide),
   (C6_irq_toggle_algebra 4 (by decide)).2.1 (by decide)⟩

/-- Claim C7: frame property of interrupt toggling.  For any 32-bit IE
value and either boolean argument, `enable_tx_watermark_irq` changes at
most bit 0 and `enable_rx_watermark_irq` at most bit 1, all other bits of
IE being preserved, and each operation accesses no register other
than IE. -/
theorem C7_irq_frame (ie : Nat) (enable : Bool) (h32 : ie < 2 ^ 32) :
    (∀ i, i ≠ 0 → (UART.enable_tx_watermark_irq ie enable).1.testBit i = ie.testBit i) ∧
    (∀ i, i ≠ 1 → (UART.enable_rx_watermark_irq ie enable).1.testBit i = ie.testBit i) ∧
    ((UART.enable_tx_watermark_irq ie enable).2.all fun a => a.regOf == REG_IE) = true ∧
    ((UART.enable_rx_watermark_irq ie enable).2.all fun a => a.regOf == REG_IE) = true := by
  refine ⟨?_, ?_, ?_, ?_⟩
  · intro i hi
    cases enable
    · simp [UART.enable_tx_watermark_irq, testBit_land_NOT_TXWM ie i h32 hi]
    · simp [UART.enable_tx_watermark_irq, Nat.testBit_or, REG_IE_TXWM_eq,
        testBit_one_of_ne i hi]
  · intro i hi
    cases enable
    · simp [UART.enable_rx_watermark_irq, testBit_land_NOT_RXWM ie i h32 hi]
    · simp [UART.enable_rx_watermark_irq, Nat.testBit_or, REG_IE_RXWM_eq,
        testBit_two_of_ne i hi]
  · cases enable <;> rfl
  · cases enable <;> rfl

/-- Witness for C7 at IE = 5, disabling. -/
theorem C7_irq_frame_witness :
    (5 : Nat) < 2 ^ 32 ∧
    ((∀ i, i ≠ 0 → (UART.enable_tx_watermark_irq 5 false).1.testBit i = (5 : Nat).testBit i) ∧
     (∀ i, i ≠ 1 → (UART.enable_rx_watermark_irq 5 false).1.testBit i = (5 : Nat).testBit i) ∧
     ((UART.enable_tx_watermark_irq 5 false).2.all fun a => a.regOf == REG_IE) = true ∧
     ((UART.enable_rx_watermark_irq 5 false).2.all fun a => a.regOf == REG_IE) = true) :=
  ⟨by decide, C7_irq_frame 5 false (by decide)⟩

/-- Claim C8: construction is infallible.  For every base address,
`new` returns `Ok` with a handle whose `base_addr` is the supplied
argument; the `Fault` branch is never produced. -/
theorem C8_new_infallible (base_addr : Nat) :
    (UART.new base_addr).1 = Except.ok { base_addr := base_addr } :=
  rfl

/-- Claim C9: the span-size query returns exactly 28 bytes (7 registers of
4 bytes) for every controller and performs no register access. -/
theorem C9_span_size (u : UART) :
    u.size = (28, ([] : List Access)) ∧ REG_TOTAL_SIZE = 28 :=
  ⟨rfl, rfl⟩

/-- Claim C10: zero-extended transmit write.  On every successful
execution of `send_byte`, the only write in the trace is a single write of
the byte `b` to TXDATA, and since `b < 2^8` the written 32-bit word has
bits 8 through 31 (in particular the bit-31 full-status position) all
zero. -/
theorem C10_send_byte_zero_extended (u : UART) (oracle : Nat → Nat) (b : Nat)
    (hb : b < 2 ^ 8) (hok : (u.send_byte oracle b).1 = Except.ok ()) :
    writesOf (u.send_byte oracle b).2 = [Access.write REG_TXDATA b] ∧
    ∀ i, 8 ≤ i → b.testBit i = false := by
  refine ⟨send_byte_go_ok_writes oracle b LOOP_MAX 0 hok, ?_⟩
  intro i hi
  exact testBit_false_of_lt b i 8 hi hb

/-- Witness for C10: a device whose TXDATA full bit is clear on the first
poll, sending byte 0x41. -/
theorem C10_send_byte_zero_extended_witness :
    (0x41 : Nat) < 2 ^ 8 ∧
    (UART.send_byte ⟨0⟩ (fun _ : Nat => 0) 0x41).1 = Except.ok () ∧
    (writesOf (UART.send_byte ⟨0⟩ (fun _ : Nat => 0) 0x41).2 = [Access.write REG_TXDATA 0x41] ∧
     ∀ i, 8 ≤ i → (0x41 : Nat).testBit i = false) :=
  ⟨by decide, rfl, C10_send_byte_zero_extended ⟨0⟩ (fun _ => 0) 0x41 (by decide) rfl⟩

end SifiveUart
